import Mathlib

/-!
A shallow embedding of the country-identity subsystem of the
`rust-phonenumber` crate (`src/country.rs`): the closed enumeration of
territory identifiers `Id` with its two conversion tables
(`Id.from_str`, `Id.as_ref`), and the provenance-tagged calling code
`Code` with its `Source` enumeration. Definitions mirror the Rust source
item by item; theorems settle the specification claims about them.
-/

set_option maxHeartbeats 1000000
set_option maxRecDepth 10000

namespace Country

/-- Modelled from the spec: the parse-error type lives in the crate's
error module, which is outside `country.rs`; the spec names a single
failure kind for this subsystem, `InvalidCountryCode`, raised solely by
text-to-identifier conversion. -/
inductive Parse where
  | InvalidCountryCode
deriving DecidableEq

/-- The source from which the country code is derived (`country::Source`).
The four variants `Plus`, `Idd`, `Number`, `Default` mirror the Rust enum
in declaration order. -/
inductive Source where
  | Plus
  | Idd
  | Number
  | Default
deriving DecidableEq, Fintype

/-- `impl Default for Source`: the default variant is `Source::Default`,
the tag for a country code inferred from the caller-supplied default
region rather than from the input itself. -/
def Source.default : Source := Source.Default

/-- Variant-to-text direction of the serde interchange encoding of
`Source`, as produced by the derive with `rename_all = "snake_case"` on
the Rust enum: each variant name lower-cased. -/
def Source.serdeName : Source → String
  | Source.Plus => "plus"
  | Source.Idd => "idd"
  | Source.Number => "number"
  | Source.Default => "default"

/-- Text-to-variant direction of the serde interchange encoding of
`Source`: deserialization accepts exactly the four snake_case names
produced by `Source.serdeName` and rejects everything else. -/
def Source.fromSerdeName (s : String) : Option Source :=
  match s with
  | "plus" => some Source.Plus
  | "idd" => some Source.Idd
  | "number" => some Source.Number
  | "default" => some Source.Default
  | _ => none

/-- Structural equality on `Source`, as the derived `PartialEq` compares
fieldless variants: true exactly when the two discriminants coincide. -/
def Source.eq : Source → Source → Bool
  | Source.Plus, Source.Plus => true
  | Source.Idd, Source.Idd => true
  | Source.Number, Source.Number => true
  | Source.Default, Source.Default => true
  | _, _ => false

/-- The discriminant of a `Source` variant, in declaration order; this is
what the derived `Hash` implementation feeds to the hasher for a
fieldless enum value. -/
def Source.discriminant : Source → Nat
  | Source.Plus => 0
  | Source.Idd => 1
  | Source.Number => 2
  | Source.Default => 3

/-- `country::Code`: a numeric country calling code (a `u16` in the Rust
source; no arithmetic is performed on it in this module, so it is
embedded as `Nat`) together with the source it was derived from. The
structure fields double as the Rust accessors `Code::value` and
`Code::source`. -/
structure Code where
  value : Nat
  source : Source
deriving DecidableEq

/-- Structural equality on `Code`, as the derived `PartialEq` compares
both fields: the numeric values and the sources must both match. -/
def Code.eq (a b : Code) : Bool :=
  (a.value == b.value) && Source.eq a.source b.source

/-- The sequence of data the derived `Hash` implementation feeds to the
hasher for a `Code`: the `value` field followed by the `source` field's
discriminant. Two values hash identically exactly when they feed the
hasher identical sequences. -/
def Code.hashInput (code : Code) : List Nat :=
  [code.value, code.source.discriminant]

/-- `impl From<Code> for u16`: the narrowing conversion returns the
stored `value` field. -/
def u16_from (code : Code) : Nat :=
  code.value

/-- CLDR country IDs (`country::Id`): the closed enumeration of territory
identifiers, in the declaration order of the Rust source. The Rust variant
`IO` is rendered `IO'` here, so that it cannot be confused with Lean's
built-in `IO` namespace; its canonical text stays "IO". -/
inductive Id where
  | AC
  | AD
  | AE
  | AF
  | AG
  | AI
  | AL
  | AM
  | AO
  | AR
  | AS
  | AT
  | AU
  | AW
  | AX
  | AZ
  | BA
  | BB
  | BD
  | BE
  | BF
  | BG
  | BH
  | BI
  | BJ
  | BL
  | BM
  | BN
  | BO
  | BQ
  | BR
  | BS
  | BT
  | BW
  | BY
  | BZ
  | CA
  | CC
  | CD
  | CF
  | CG
  | CH
  | CI
  | CK
  | CL
  | CM
  | CN
  | CO
  | CR
  | CU
  | CV
  | CW
  | CX
  | CY
  | CZ
  | DE
  | DJ
  | DK
  | DM
  | DO
  | DZ
  | EC
  | EE
  | EG
  | EH
  | ER
  | ES
  | ET
  | FI
  | FJ
  | FK
  | FM
  | FO
  | FR
  | GA
  | GB
  | GD
  | GE
  | GF
  | GG
  | GH
  | GI
  | GL
  | GM
  | GN
  | GP
  | GQ
  | GR
  | GT
  | GU
  | GW
  | GY
  | HK
  | HN
  | HR
  | HT
  | HU
  | ID
  | IE
  | IL
  | IM
  | IN
  | IO'
  | IQ
  | IR
  | IS
  | IT
  | JE
  | JM
  | JO
  | JP
  | KE
  | KG
  | KH
  | KI
  | KM
  | KN
  | KP
  | KR
  | KW
  | KY
  | KZ
  | LA
  | LB
  | LC
  | LI
  | LK
  | LR
  | LS
  | LT
  | LU
  | LV
  | LY
  | MA
  | MC
  | MD
  | ME
  | MF
  | MG
  | MH
  | MK
  | ML
  | MM
  | MN
  | MO
  | MP
  | MQ
  | MR
  | MS
  | MT
  | MU
  | MV
  | MW
  | MX
  | MY
  | MZ
  | NA
  | NC
  | NE
  | NF
  | NG
  | NI
  | NL
  | NO
  | NP
  | NR
  | NU
  | NZ
  | OM
  | PA
  | PE
  | PF
  | PG
  | PH
  | PK
  | PL
  | PM
  | PR
  | PS
  | PT
  | PW
  | PY
  | QA
  | RE
  | RO
  | RS
  | RU
  | RW
  | SA
  | SB
  | SC
  | SD
  | SE
  | SG
  | SH
  | SI
  | SJ
  | SK
  | SL
  | SM
  | SN
  | SO
  | SR
  | SS
  | ST
  | SV
  | SX
  | SY
  | SZ
  | TA
  | TC
  | TD
  | TG
  | TH
  | TJ
  | TK
  | TL
  | TM
  | TN
  | TO
  | TR
  | TT
  | TV
  | TW
  | TZ
  | UA
  | UG
  | US
  | UY
  | UZ
  | VA
  | VC
  | VE
  | VG
  | VI
  | VN
  | VU
  | WF
  | WS
  | XK
  | YE
  | YT
  | ZA
  | ZM
  | ZW
deriving DecidableEq

/-- The arms of the `match` in `impl FromStr for Id`, in source order:
each pattern string paired with the identifier its arm returns. -/
def Id.codes : List (String × Id) :=
  [("AC", Id.AC),
   ("AD", Id.AD),
   ("AE", Id.AE),
   ("AF", Id.AF),
   ("AG", Id.AG),
   ("AI", Id.AI),
   ("AL", Id.AL),
   ("AM", Id.AM),
   ("AO", Id.AO),
   ("AR", Id.AR),
   ("AS", Id.AS),
   ("AT", Id.AT),
   ("AU", Id.AU),
   ("AW", Id.AW),
   ("AX", Id.AX),
   ("AZ", Id.AZ),
   ("BA", Id.BA),
   ("BB", Id.BB),
   ("BD", Id.BD),
   ("BE", Id.BE),
   ("BF", Id.BF),
   ("BG", Id.BG),
   ("BH", Id.BH),
   ("BI", Id.BI),
   ("BJ", Id.BJ),
   ("BL", Id.BL),
   ("BM", Id.BM),
   ("BN", Id.BN),
   ("BO", Id.BO),
   ("BQ", Id.BQ),
   ("BR", Id.BR),
   ("BS", Id.BS),
   ("BT", Id.BT),
   ("BW", Id.BW),
   ("BY", Id.BY),
   ("BZ", Id.BZ),
   ("CA", Id.CA),
   ("CC", Id.CC),
   ("CD", Id.CD),
   ("CF", Id.CF),
   ("CG", Id.CG),
   ("CH", Id.CH),
   ("CI", Id.CI),
   ("CK", Id.CK),
   ("CL", Id.CL),
   ("CM", Id.CM),
   ("CN", Id.CN),
   ("CO", Id.CO),
   ("CR", Id.CR),
   ("CU", Id.CU),
   ("CV", Id.CV),
   ("CW", Id.CW),
   ("CX", Id.CX),
   ("CY", Id.CY),
   ("CZ", Id.CZ),
   ("DE", Id.DE),
   ("DJ", Id.DJ),
   ("DK", Id.DK),
   ("DM", Id.DM),
   ("DO", Id.DO),
   ("DZ", Id.DZ),
   ("EC", Id.EC),
   ("EE", Id.EE),
   ("EG", Id.EG),
   ("EH", Id.EH),
   ("ER", Id.ER),
   ("ES", Id.ES),
   ("ET", Id.ET),
   ("FI", Id.FI),
   ("FJ", Id.FJ),
   ("FK", Id.FK),
   ("FM", Id.FM),
   ("FO", Id.FO),
   ("FR", Id.FR),
   ("GA", Id.GA),
   ("GB", Id.GB),
   ("GD", Id.GD),
   ("GE", Id.GE),
   ("GF", Id.GF),
   ("GG", Id.GG),
   ("GH", Id.GH),
   ("GI", Id.GI),
   ("GL", Id.GL),
   ("GM", Id.GM),
   ("GN", Id.GN),
   ("GP", Id.GP),
   ("GQ", Id.GQ),
   ("GR", Id.GR),
   ("GT", Id.GT),
   ("GU", Id.GU),
   ("GW", Id.GW),
   ("GY", Id.GY),
   ("HK", Id.HK),
   ("HN", Id.HN),
   ("HR", Id.HR),
   ("HT", Id.HT),
   ("HU", Id.HU),
   ("ID", Id.ID),
   ("IE", Id.IE),
   ("IL", Id.IL),
   ("IM", Id.IM),
   ("IN", Id.IN),
   ("IO", Id.IO'),
   ("IQ", Id.IQ),
   ("IR", Id.IR),
   ("IS", Id.IS),
   ("IT", Id.IT),
   ("JE", Id.JE),
   ("JM", Id.JM),
   ("JO", Id.JO),
   ("JP", Id.JP),
   ("KE", Id.KE),
   ("KG", Id.KG),
   ("KH", Id.KH),
   ("KI", Id.KI),
   ("KM", Id.KM),
   ("KN", Id.KN),
   ("KP", Id.KP),
   ("KR", Id.KR),
   ("KW", Id.KW),
   ("KY", Id.KY),
   ("KZ", Id.KZ),
   ("LA", Id.LA),
   ("LB", Id.LB),
   ("LC", Id.LC),
   ("LI", Id.LI),
   ("LK", Id.LK),
   ("LR", Id.LR),
   ("LS", Id.LS),
   ("LT", Id.LT),
   ("LU", Id.LU),
   ("LV", Id.LV),
   ("LY", Id.LY),
   ("MA", Id.MA),
   ("MC", Id.MC),
   ("MD", Id.MD),
   ("ME", Id.ME),
   ("MF", Id.MF),
   ("MG", Id.MG),
   ("MH", Id.MH),
   ("MK", Id.MK),
   ("ML", Id.ML),
   ("MM", Id.MM),
   ("MN", Id.MN),
   ("MO", Id.MO),
   ("MP", Id.MP),
   ("MQ", Id.MQ),
   ("MR", Id.MR),
   ("MS", Id.MS),
   ("MT", Id.MT),
   ("MU", Id.MU),
   ("MV", Id.MV),
   ("MW", Id.MW),
   ("MX", Id.MX),
   ("MY", Id.MY),
   ("MZ", Id.MZ),
   ("NA", Id.NA),
   ("NC", Id.NC),
   ("NE", Id.NE),
   ("NF", Id.NF),
   ("NG", Id.NG),
   ("NI", Id.NI),
   ("NL", Id.NL),
   ("NO", Id.NO),
   ("NP", Id.NP),
   ("NR", Id.NR),
   ("NU", Id.NU),
   ("NZ", Id.NZ),
   ("OM", Id.OM),
   ("PA", Id.PA),
   ("PE", Id.PE),
   ("PF", Id.PF),
   ("PG", Id.PG),
   ("PH", Id.PH),
   ("PK", Id.PK),
   ("PL", Id.PL),
   ("PM", Id.PM),
   ("PR", Id.PR),
   ("PS", Id.PS),
   ("PT", Id.PT),
   ("PW", Id.PW),
   ("PY", Id.PY),
   ("QA", Id.QA),
   ("RE", Id.RE),
   ("RO", Id.RO),
   ("RS", Id.RS),
   ("RU", Id.RU),
   ("RW", Id.RW),
   ("SA", Id.SA),
   ("SB", Id.SB),
   ("SC", Id.SC),
   ("SD", Id.SD),
   ("SE", Id.SE),
   ("SG", Id.SG),
   ("SH", Id.SH),
   ("SI", Id.SI),
   ("SJ", Id.SJ),
   ("SK", Id.SK),
   ("SL", Id.SL),
   ("SM", Id.SM),
   ("SN", Id.SN),
   ("SO", Id.SO),
   ("SR", Id.SR),
   ("SS", Id.SS),
   ("ST", Id.ST),
   ("SV", Id.SV),
   ("SX", Id.SX),
   ("SY", Id.SY),
   ("SZ", Id.SZ),
   ("TA", Id.TA),
   ("TC", Id.TC),
   ("TD", Id.TD),
   ("TG", Id.TG),
   ("TH", Id.TH),
   ("TJ", Id.TJ),
   ("TK", Id.TK),
   ("TL", Id.TL),
   ("TM", Id.TM),
   ("TN", Id.TN),
   ("TO", Id.TO),
   ("TR", Id.TR),
   ("TT", Id.TT),
   ("TV", Id.TV),
   ("TW", Id.TW),
   ("TZ", Id.TZ),
   ("UA", Id.UA),
   ("UG", Id.UG),
   ("US", Id.US),
   ("UY", Id.UY),
   ("UZ", Id.UZ),
   ("VA", Id.VA),
   ("VC", Id.VC),
   ("VE", Id.VE),
   ("VG", Id.VG),
   ("VI", Id.VI),
   ("VN", Id.VN),
   ("VU", Id.VU),
   ("WF", Id.WF),
   ("WS", Id.WS),
   ("XK", Id.XK),
   ("YE", Id.YE),
   ("YT", Id.YT),
   ("ZA", Id.ZA),
   ("ZM", Id.ZM),
   ("ZW", Id.ZW)]

/-- `impl FromStr for Id`: case-sensitive exact match of the input text
against the canonical two-letter codes; any other text is rejected with
`Parse.InvalidCountryCode`. The Rust source is a one-arm-per-code `match`
on the string; it is embedded as a first-match lookup over `Id.codes`,
the list of that match's arms in source order (the patterns are pairwise
distinct, so the semantics coincide arm for arm). -/
def Id.from_str (value : String) : Except Parse Id :=
  match Id.codes.find? (fun arm => arm.fst == value) with
  | some arm => Except.ok arm.snd
  | none => Except.error Parse.InvalidCountryCode

/-- `impl AsRef<str> for Id`: the canonical two-letter text of each
identifier, arm for arm as in the Rust source. -/
def Id.as_ref : Id → String
  | Id.AC => "AC"
  | Id.AD => "AD"
  | Id.AE => "AE"
  | Id.AF => "AF"
  | Id.AG => "AG"
  | Id.AI => "AI"
  | Id.AL => "AL"
  | Id.AM => "AM"
  | Id.AO => "AO"
  | Id.AR => "AR"
  | Id.AS => "AS"
  | Id.AT => "AT"
  | Id.AU => "AU"
  | Id.AW => "AW"
  | Id.AX => "AX"
  | Id.AZ => "AZ"
  | Id.BA => "BA"
  | Id.BB => "BB"
  | Id.BD => "BD"
  | Id.BE => "BE"
  | Id.BF => "BF"
  | Id.BG => "BG"
  | Id.BH => "BH"
  | Id.BI => "BI"
  | Id.BJ => "BJ"
  | Id.BL => "BL"
  | Id.BM => "BM"
  | Id.BN => "BN"
  | Id.BO => "BO"
  | Id.BQ => "BQ"
  | Id.BR => "BR"
  | Id.BS => "BS"
  | Id.BT => "BT"
  | Id.BW => "BW"
  | Id.BY => "BY"
  | Id.BZ => "BZ"
  | Id.CA => "CA"
  | Id.CC => "CC"
  | Id.CD => "CD"
  | Id.CF => "CF"
  | Id.CG => "CG"
  | Id.CH => "CH"
  | Id.CI => "CI"
  | Id.CK => "CK"
  | Id.CL => "CL"
  | Id.CM => "CM"
  | Id.CN => "CN"
  | Id.CO => "CO"
  | Id.CR => "CR"
  | Id.CU => "CU"
  | Id.CV => "CV"
  | Id.CW => "CW"
  | Id.CX => "CX"
  | Id.CY => "CY"
  | Id.CZ => "CZ"
  | Id.DE => "DE"
  | Id.DJ => "DJ"
  | Id.DK => "DK"
  | Id.DM => "DM"
  | Id.DO => "DO"
  | Id.DZ => "DZ"
  | Id.EC => "EC"
  | Id.EE => "EE"
  | Id.EG => "EG"
  | Id.EH => "EH"
  | Id.ER => "ER"
  | Id.ES => "ES"
  | Id.ET => "ET"
  | Id.FI => "FI"
  | Id.FJ => "FJ"
  | Id.FK => "FK"
  | Id.FM => "FM"
  | Id.FO => "FO"
  | Id.FR => "FR"
  | Id.GA => "GA"
  | Id.GB => "GB"
  | Id.GD => "GD"
  | Id.GE => "GE"
  | Id.GF => "GF"
  | Id.GG => "GG"
  | Id.GH => "GH"
  | Id.GI => "GI"
  | Id.GL => "GL"
  | Id.GM => "GM"
  | Id.GN => "GN"
  | Id.GP => "GP"
  | Id.GQ => "GQ"
  | Id.GR => "GR"
  | Id.GT => "GT"
  | Id.GU => "GU"
  | Id.GW => "GW"
  | Id.GY => "GY"
  | Id.HK => "HK"
  | Id.HN => "HN"
  | Id.HR => "HR"
  | Id.HT => "HT"
  | Id.HU => "HU"
  | Id.ID => "ID"
  | Id.IE => "IE"
  | Id.IL => "IL"
  | Id.IM => "IM"
  | Id.IN => "IN"
  | Id.IO' => "IO"
  | Id.IQ => "IQ"
  | Id.IR => "IR"
  | Id.IS => "IS"
  | Id.IT => "IT"
  | Id.JE => "JE"
  | Id.JM => "JM"
  | Id.JO => "JO"
  | Id.JP => "JP"
  | Id.KE => "KE"
  | Id.KG => "KG"
  | Id.KH => "KH"
  | Id.KI => "KI"
  | Id.KM => "KM"
  | Id.KN => "KN"
  | Id.KP => "KP"
  | Id.KR => "KR"
  | Id.KW => "KW"
  | Id.KY => "KY"
  | Id.KZ => "KZ"
  | Id.LA => "LA"
  | Id.LB => "LB"
  | Id.LC => "LC"
  | Id.LI => "LI"
  | Id.LK => "LK"
  | Id.LR => "LR"
  | Id.LS => "LS"
  | Id.LT => "LT"
  | Id.LU => "LU"
  | Id.LV => "LV"
  | Id.LY => "LY"
  | Id.MA => "MA"
  | Id.MC => "MC"
  | Id.MD => "MD"
  | Id.ME => "ME"
  | Id.MF => "MF"
  | Id.MG => "MG"
  | Id.MH => "MH"
  | Id.MK => "MK"
  | Id.ML => "ML"
  | Id.MM => "MM"
  | Id.MN => "MN"
  | Id.MO => "MO"
  | Id.MP => "MP"
  | Id.MQ => "MQ"
  | Id.MR => "MR"
  | Id.MS => "MS"
  | Id.MT => "MT"
  | Id.MU => "MU"
  | Id.MV => "MV"
  | Id.MW => "MW"
  | Id.MX => "MX"
  | Id.MY => "MY"
  | Id.MZ => "MZ"
  | Id.NA => "NA"
  | Id.NC => "NC"
  | Id.NE => "NE"
  | Id.NF => "NF"
  | Id.NG => "NG"
  | Id.NI => "NI"
  | Id.NL => "NL"
  | Id.NO => "NO"
  | Id.NP => "NP"
  | Id.NR => "NR"
  | Id.NU => "NU"
  | Id.NZ => "NZ"
  | Id.OM => "OM"
  | Id.PA => "PA"
  | Id.PE => "PE"
  | Id.PF => "PF"
  | Id.PG => "PG"
  | Id.PH => "PH"
  | Id.PK => "PK"
  | Id.PL => "PL"
  | Id.PM => "PM"
  | Id.PR => "PR"
  | Id.PS => "PS"
  | Id.PT => "PT"
  | Id.PW => "PW"
  | Id.PY => "PY"
  | Id.QA => "QA"
  | Id.RE => "RE"
  | Id.RO => "RO"
  | Id.RS => "RS"
  | Id.RU => "RU"
  | Id.RW => "RW"
  | Id.SA => "SA"
  | Id.SB => "SB"
  | Id.SC => "SC"
  | Id.SD => "SD"
  | Id.SE => "SE"
  | Id.SG => "SG"
  | Id.SH => "SH"
  | Id.SI => "SI"
  | Id.SJ => "SJ"
  | Id.SK => "SK"
  | Id.SL => "SL"
  | Id.SM => "SM"
  | Id.SN => "SN"
  | Id.SO => "SO"
  | Id.SR => "SR"
  | Id.SS => "SS"
  | Id.ST => "ST"
  | Id.SV => "SV"
  | Id.SX => "SX"
  | Id.SY => "SY"
  | Id.SZ => "SZ"
  | Id.TA => "TA"
  | Id.TC => "TC"
  | Id.TD => "TD"
  | Id.TG => "TG"
  | Id.TH => "TH"
  | Id.TJ => "TJ"
  | Id.TK => "TK"
  | Id.TL => "TL"
  | Id.TM => "TM"
  | Id.TN => "TN"
  | Id.TO => "TO"
  | Id.TR => "TR"
  | Id.TT => "TT"
  | Id.TV => "TV"
  | Id.TW => "TW"
  | Id.TZ => "TZ"
  | Id.UA => "UA"
  | Id.UG => "UG"
  | Id.US => "US"
  | Id.UY => "UY"
  | Id.UZ => "UZ"
  | Id.VA => "VA"
  | Id.VC => "VC"
  | Id.VE => "VE"
  | Id.VG => "VG"
  | Id.VI => "VI"
  | Id.VN => "VN"
  | Id.VU => "VU"
  | Id.WF => "WF"
  | Id.WS => "WS"
  | Id.XK => "XK"
  | Id.YE => "YE"
  | Id.YT => "YT"
  | Id.ZA => "ZA"
  | Id.ZM => "ZM"
  | Id.ZW => "ZW"

theorem codes_fst_as_ref : ∀ arm ∈ Id.codes, arm.fst = Id.as_ref arm.snd := by
  decide

theorem codes_keys_nodup : (Id.codes.map Prod.fst).Nodup := by
  decide

theorem mem_codes : ∀ t : Id, ∃ arm ∈ Id.codes, arm.snd = t := by
  intro t
  cases t <;> decide

theorem from_str_eval_roundtrip (t : Id) : Id.from_str (Id.as_ref t) = Except.ok t := by
  obtain ⟨arm, hmem, hsnd⟩ := mem_codes t
  have hfst : arm.fst = Id.as_ref t := by
    rw [codes_fst_as_ref arm hmem, hsnd]
  have hsome : (Id.codes.find? (fun a => a.fst == Id.as_ref t)).isSome := by
    rw [List.find?_isSome]
    refine ⟨arm, hmem, ?_⟩
    simp [hfst]
  obtain ⟨q, hq⟩ := Option.isSome_iff_exists.mp hsome
  have hqmem : q ∈ Id.codes := List.mem_of_find?_eq_some hq
  have hqkey : q.fst = Id.as_ref t := by
    have hp := List.find?_some hq
    simpa using hp
  have hqarm : q = arm := by
    apply List.inj_on_of_nodup_map codes_keys_nodup hqmem hmem
    rw [hqkey, hfst]
  simp [Id.from_str, hq, hqarm, hsnd]

theorem from_str_ok_canonical (s : String) (t : Id)
    (h : Id.from_str s = Except.ok t) : s = Id.as_ref t := by
  unfold Id.from_str at h
  split at h
  next arm heq =>
    injection h with h2
    have hmem := List.mem_of_find?_eq_some heq
    have hkey : arm.fst = s := by
      have hp := List.find?_some heq
      simpa using hp
    rw [← h2, ← codes_fst_as_ref arm hmem, hkey]
  next heq =>
    exact Except.noConfusion h

theorem from_str_split (s : String) :
    Id.from_str s = Except.error Parse.InvalidCountryCode ∨
      ∃ t : Id, Id.from_str s = Except.ok t := by
  cases heq : Id.codes.find? (fun arm => arm.fst == s) with
  | some arm =>
      right
      exact ⟨arm.snd, by simp [Id.from_str, heq]⟩
  | none =>
      left
      simp [Id.from_str, heq]

theorem source_eq_iff (s1 s2 : Source) : Source.eq s1 s2 = true ↔ s1 = s2 := by
  cases s1 <;> cases s2 <;> simp [Source.eq]

theorem source_discriminant_iff (s1 s2 : Source) :
    Source.discriminant s1 = Source.discriminant s2 ↔ s1 = s2 := by
  cases s1 <;> cases s2 <;> simp [Source.discriminant]
theorem not_canonical_of_error (s : String)
    (h : Id.from_str s = Except.error Parse.InvalidCountryCode) :
    ∀ t : Id, Id.as_ref t ≠ s := by
  intro t ht
  have hok := from_str_eval_roundtrip t
  rw [ht, h] at hok
  exact Except.noConfusion hok

/-- C1: for every territory identifier tag `t` in the closed enumeration,
parsing the canonical text of `t` back yields exactly `Ok t`:
`Id.from_str (Id.as_ref t) = Except.ok t`. -/
theorem from_str_as_ref_roundtrip :
    ∀ t : Id, Id.from_str (Id.as_ref t) = Except.ok t :=
  fun t => from_str_eval_roundtrip t

/-- C2: `Id.from_str` succeeds with `Except.ok id` iff the input text is
character-for-character the canonical code of some identifier `id`, fails
with `Parse.InvalidCountryCode` on every other string, and in particular
rejects "us", "USA", "" and "ZZ" with `Parse.InvalidCountryCode`. -/
theorem from_str_exact_match :
    (∀ text : String, ∀ id : Id,
        Id.from_str text = Except.ok id ↔ text = Id.as_ref id)
  ∧ (∀ text : String, (¬ ∃ id : Id, text = Id.as_ref id) →
        Id.from_str text = Except.error Parse.InvalidCountryCode)
  ∧ Id.from_str "us" = Except.error Parse.InvalidCountryCode
  ∧ Id.from_str "USA" = Except.error Parse.InvalidCountryCode
  ∧ Id.from_str "" = Except.error Parse.InvalidCountryCode
  ∧ Id.from_str "ZZ" = Except.error Parse.InvalidCountryCode := by
  refine ⟨?_, ?_, rfl, rfl, rfl, rfl⟩
  · intro text id
    constructor
    · intro h
      exact from_str_ok_canonical text id h
    · intro h
      rw [h]
      exact from_str_eval_roundtrip id
  · intro text hnone
    rcases from_str_split text with h | ⟨t, h⟩
    · exact h
    · exact absurd ⟨t, from_str_ok_canonical text t h⟩ hnone

/-- Witness for C2, discharged at the concrete input "ZZ". -/
theorem from_str_exact_match_witness :
    (¬ ∃ id : Id, "ZZ" = Id.as_ref id) ∧
      Id.from_str "ZZ" = Except.error Parse.InvalidCountryCode := by
  have hnone : ¬ ∃ id : Id, "ZZ" = Id.as_ref id := by
    rintro ⟨id, h⟩
    have hok := from_str_eval_roundtrip id
    rw [← h] at hok
    have herr : Id.from_str "ZZ" = Except.error Parse.InvalidCountryCode := rfl
    rw [herr] at hok
    exact Except.noConfusion hok
  exact ⟨hnone, from_str_exact_match.2.1 "ZZ" hnone⟩

/-- C3: tag-to-text conversion `Id.as_ref` is total over the identifier
enumeration and injective — distinct tags yield distinct strings — and
every output is a two-letter string. -/
theorem as_ref_injective_two_letter :
    (∀ t1 t2 : Id, t1 ≠ t2 → Id.as_ref t1 ≠ Id.as_ref t2)
  ∧ (∀ t : Id, (Id.as_ref t).length = 2) := by
  constructor
  · intro t1 t2 hne heq
    apply hne
    have h1 := from_str_eval_roundtrip t1
    rw [heq] at h1
    have h2 := from_str_eval_roundtrip t2
    rw [h1] at h2
    exact Except.ok.inj h2
  · intro t
    cases t <;> rfl

/-- Witness for C3, discharged at the concrete distinct tags AC and AD. -/
theorem as_ref_injective_two_letter_witness :
    Id.AC ≠ Id.AD ∧ Id.as_ref Id.AC ≠ Id.as_ref Id.AD ∧
      (Id.as_ref Id.AC).length = 2 :=
  ⟨by decide, as_ref_injective_two_letter.1 Id.AC Id.AD (by decide),
    as_ref_injective_two_letter.2 Id.AC⟩

/-- C4: equality and hashing of `Code` consider both fields: equality
holds exactly when both `value` and `source` agree, the hasher input
streams agree exactly when both fields agree, and in particular
`⟨33, Plus⟩` and `⟨33, Default⟩` compare unequal and feed the hasher
distinct streams. -/
theorem code_eq_hash_both_fields :
    (∀ a b : Code, Code.eq a b = true ↔ a.value = b.value ∧ a.source = b.source)
  ∧ (∀ a b : Code,
        Code.hashInput a = Code.hashInput b ↔
          a.value = b.value ∧ a.source = b.source)
  ∧ Code.eq ⟨33, Source.Plus⟩ ⟨33, Source.Default⟩ = false
  ∧ Code.hashInput ⟨33, Source.Plus⟩ ≠ Code.hashInput ⟨33, Source.Default⟩ := by
  refine ⟨?_, ?_, rfl, by decide⟩
  · intro a b
    simp [Code.eq, Bool.and_eq_true, beq_iff_eq, source_eq_iff]
  · intro a b
    simp [Code.hashInput, source_discriminant_iff]

/-- Witness for C4 at a pair of concrete equal codes. -/
theorem code_eq_hash_both_fields_witness :
    Code.eq ⟨33, Source.Plus⟩ ⟨33, Source.Plus⟩ = true :=
  (code_eq_hash_both_fields.1 ⟨33, Source.Plus⟩ ⟨33, Source.Plus⟩).mpr ⟨rfl, rfl⟩

/-- C5: the narrowing conversion `u16_from` returns exactly the stored
`value` field, independently of `source`; narrowing `⟨33, Idd⟩` yields 33. -/
theorem u16_from_code_value :
    (∀ code : Code, u16_from code = code.value)
  ∧ (∀ v : Nat, ∀ s1 s2 : Source, u16_from ⟨v, s1⟩ = u16_from ⟨v, s2⟩)
  ∧ u16_from ⟨33, Source.Idd⟩ = 33 :=
  ⟨fun _ => rfl, fun _ _ _ => rfl, rfl⟩

/-- C6: the default `Source` is `Source.Default`, the variant denoting a
country code inferred from the caller-supplied default region rather than
from the input itself. -/
theorem source_default_is_default_region : Source.default = Source.Default :=
  rfl

/-- C7: `Source` is a closed enumeration of exactly four values, and its
serde interchange names are "plus", "idd", "number", "default" for
`Plus`, `Idd`, `Number`, `Default`; deserialization accepts exactly those
names. -/
theorem source_four_values_serde_names :
    (∀ s : Source, s ∈ [Source.Plus, Source.Idd, Source.Number, Source.Default])
  ∧ List.Nodup [Source.Plus, Source.Idd, Source.Number, Source.Default]
  ∧ Source.serdeName Source.Plus = "plus"
  ∧ Source.serdeName Source.Idd = "idd"
  ∧ Source.serdeName Source.Number = "number"
  ∧ Source.serdeName Source.Default = "default"
  ∧ (∀ str : String, ∀ s : Source,
        Source.fromSerdeName str = some s ↔ str = Source.serdeName s) := by
  refine ⟨by decide, by decide, rfl, rfl, rfl, rfl, ?_⟩
  intro str s
  constructor
  · intro h
    unfold Source.fromSerdeName at h
    split at h
    all_goals first
      | exact Option.noConfusion h
      | (injection h with h2; subst h2; rfl)
  · intro h
    subst h
    cases s <;> rfl

/-- C8: `Id.from_str` is total over arbitrary strings: every input yields
either `Except.ok id` for some identifier or
`Except.error Parse.InvalidCountryCode`, and nothing else. -/
theorem from_str_total :
    ∀ s : String, (∃ id : Id, Id.from_str s = Except.ok id) ∨
      Id.from_str s = Except.error Parse.InvalidCountryCode := by
  intro s
  rcases from_str_split s with h | ⟨t, h⟩
  · exact Or.inr h
  · exact Or.inl ⟨t, h⟩

/-- C9: the numbering-plan pseudo-regions AC, TA and XK are ordinary
members of the identifier set, each round-tripping through its two-letter
text. -/
theorem pseudo_regions_ac_ta_xk :
    Id.from_str "AC" = Except.ok Id.AC ∧ Id.as_ref Id.AC = "AC"
  ∧ Id.from_str "TA" = Except.ok Id.TA ∧ Id.as_ref Id.TA = "TA"
  ∧ Id.from_str "XK" = Except.ok Id.XK ∧ Id.as_ref Id.XK = "XK" :=
  ⟨rfl, rfl, rfl, rfl, rfl, rfl⟩

/-- C10: the identifier set is strictly narrower than ISO 3166-1 alpha-2:
the assigned codes "AQ", "GS" and "UM" are not the canonical text of any
member, and `Id.from_str` rejects each with `Parse.InvalidCountryCode`. -/
theorem iso_codes_not_members :
    (∀ t : Id, Id.as_ref t ≠ "AQ")
  ∧ (∀ t : Id, Id.as_ref t ≠ "GS")
  ∧ (∀ t : Id, Id.as_ref t ≠ "UM")
  ∧ Id.from_str "AQ" = Except.error Parse.InvalidCountryCode
  ∧ Id.from_str "GS" = Except.error Parse.InvalidCountryCode
  ∧ Id.from_str "UM" = Except.error Parse.InvalidCountryCode :=
  ⟨not_canonical_of_error "AQ" rfl, not_canonical_of_error "GS" rfl,
    not_canonical_of_error "UM" rfl, rfl, rfl, rfl⟩

/-- Witness for C10 at the concrete tag US. -/
theorem iso_codes_not_members_witness :
    Id.as_ref Id.US ≠ "AQ" :=
  iso_codes_not_members.1 Id.US

end Country
